import Mathlib

/-!
Verification of the unary elementwise-operation dispatch core
(aten/src/ATen/native/UnaryOps.cpp) against its design specification.

The façade layer of the source file is transcribed definition by
definition.  Collaborators that the source calls into but that live
outside the file under study (the TensorIterator plan builder, tensor
allocation, the cast/copy interface, complex re-viewing, tensor power)
are modelled from the specification; each such definition carries a
doc comment beginning with "Modelled from the spec".  The opaque
per-device numeric kernels are abstracted as explicit function
parameters (the C++ code is likewise templated over the `Stub`).
-/

namespace Unary

/-- Element kinds of the array library, following the c10 ScalarType
enumeration: boolean, integer widths, floating widths and
complex-of-floating. -/
inductive ScalarType where
  | kBool
  | kByte
  | kShort
  | kInt
  | kLong
  | kHalf
  | kFloat
  | kDouble
  | kComplexFloat
  | kComplexDouble
deriving DecidableEq, Repr

/-- Whether a dtype is complex-of-floating (c10 isComplexType). -/
def ScalarType.isComplex : ScalarType → Bool
  | .kComplexFloat => true
  | .kComplexDouble => true
  | _ => false

/-- Whether a dtype is a floating width, complex excluded
(c10 isFloatingType). -/
def ScalarType.isFloatingType : ScalarType → Bool
  | .kHalf => true
  | .kFloat => true
  | .kDouble => true
  | _ => false

/-- Whether a dtype is an integer width, boolean excluded
(c10 isIntegralType with includeBool = false). -/
def ScalarType.isIntegralType : ScalarType → Bool
  | .kByte => true
  | .kShort => true
  | .kInt => true
  | .kLong => true
  | _ => false

/-- The real-valued counterpart of a complex dtype, identity on
non-complex dtypes (c10 toValueType). -/
def toValueType : ScalarType → ScalarType
  | .kComplexFloat => .kFloat
  | .kComplexDouble => .kDouble
  | t => t

/-- Modelled from the spec: the cast-legality oracle can_cast of the
cast/copy interface (§6), with the standard type-promotion rules:
complex never narrows to non-complex, floating never narrows to
integral, and only boolean casts to boolean. -/
def canCast (src dst : ScalarType) : Bool :=
  if src.isComplex && !dst.isComplex then false
  else if src.isFloatingType && dst.isIntegralType then false
  else if src != .kBool && dst == .kBool then false
  else true

/-- Memory layouts; the façade only distinguishes strided from the
rest. -/
inductive Layout where
  | Strided
  | Sparse
deriving DecidableEq, Repr

/-- An element value: a (real, imaginary) pair.  Non-complex dtypes
carry a zero imaginary component. -/
abbrev Val := Int × Int

/-- Modelled from the spec: the value-level effect of copy_cast of the
cast/copy interface (§6).  Casting into a non-complex dtype keeps the
real component and drops the imaginary one; casting into a complex
dtype keeps both. -/
def castVal (dst : ScalarType) (v : Val) : Val :=
  if dst.isComplex then v else (v.1, 0)

/-- Allocation options of a tensor: dtype and layout (the device tag
plays no role in the claims and is omitted). -/
structure Options where
  dtype : ScalarType
  layout : Layout
deriving DecidableEq, Repr

/-- Replace the dtype of an options record, keeping the rest; this is
the `options.dtype(t)` call of the source. -/
def Options.withDtype (o : Options) (d : ScalarType) : Options :=
  { o with dtype := d }

/-- An Array View: dtype, layout, logical shape, and the element
values in row-major order.  Strides and the device tag are not
modelled; the claims under study do not depend on them. -/
structure Tensor where
  dtype : ScalarType
  layout : Layout
  sizes : List Nat
  values : List Val
deriving DecidableEq, Repr

/-- The allocation options carried by a tensor (`self.options()`). -/
def Tensor.options (t : Tensor) : Options :=
  { dtype := t.dtype, layout := t.layout }

/-- Modelled from the spec: the allocation interface (§6), here for
`at::empty(\x7b0\x7d, options)` — a fresh one-dimensional empty tensor with
the given options. -/
def empty0 (o : Options) : Tensor :=
  { dtype := o.dtype, layout := o.layout, sizes := [0], values := [] }

/-- A unary kernel: given the common (input) dtype, maps each element
value.  This abstracts the per-device stubs the dispatch table routes
to; the C++ façade is likewise parameterized over its Stub. -/
abbrev Stub := ScalarType → Val → Val

/-- Modelled from the spec: the configuration record handed to the
Iteration Plan Builder (§4.1), mirroring the fluent
TensorIteratorConfig of the source file.  Defaults: the all-same-dtype
check is on, the memory-overlap check is off. -/
structure TensorIteratorConfig where
  same_dtype_check : Bool := true
  mem_overlap_check : Bool := false
  out : Option Tensor := none
  inp : Option Tensor := none
deriving Repr

/-- Set the all-same-dtype flag (fluent method). -/
def TensorIteratorConfig.check_all_same_dtype
    (c : TensorIteratorConfig) (b : Bool) : TensorIteratorConfig :=
  { c with same_dtype_check := b }

/-- Set the memory-overlap flag (fluent method). -/
def TensorIteratorConfig.set_check_mem_overlap
    (c : TensorIteratorConfig) (b : Bool) : TensorIteratorConfig :=
  { c with mem_overlap_check := b }

/-- Declare the output tensor (fluent method). -/
def TensorIteratorConfig.add_output
    (c : TensorIteratorConfig) (t : Tensor) : TensorIteratorConfig :=
  { c with out := some t }

/-- Declare the input tensor (fluent method). -/
def TensorIteratorConfig.add_input
    (c : TensorIteratorConfig) (t : Tensor) : TensorIteratorConfig :=
  { c with inp := some t }

/-- The error taxonomy of the design specification (§7). -/
inductive Err where
  | ShapeMismatch
  | UnsafeAliasing
  | UnsupportedDtype
  | UnsupportedDevice
  | UnsupportedLayout
  | InvalidCast
  | InvalidArgument
deriving DecidableEq, Repr

/-- The reconciled Execution Plan for a unary operation: output dtype
and layout, common logical shape, the common dtype the kernel computes
in, and the input values to walk. -/
structure TensorIterator where
  out_dtype : ScalarType
  out_layout : Layout
  shape : List Nat
  common_dtype : ScalarType
  in_values : List Val
deriving DecidableEq, Repr

/-- Modelled from the spec: the Iteration Plan Builder (§4.1) for the
unary case.  The output is resized to the input's shape; with the
all-same-dtype check on, a supplied output whose dtype differs from
the input's is rejected before any plan is built. -/
def TensorIteratorConfig.build
    (c : TensorIteratorConfig) : Except Err TensorIterator :=
  match c.out, c.inp with
  | some r, some s =>
      if c.same_dtype_check && (r.dtype != s.dtype) then
        .error .UnsupportedDtype
      else
        .ok { out_dtype := r.dtype
            , out_layout := r.layout
            , shape := s.sizes
            , common_dtype := s.dtype
            , in_values := s.values }
  | _, _ => .error .InvalidArgument

/-- Modelled from the spec: invoking a kernel on a plan (§6).  The
kernel computes each element in the plan's common dtype and the result
is written into the output, cast to the output dtype; the call returns
only after the output is fully populated. -/
def TensorIterator.run (it : TensorIterator) (stub : Stub) : Tensor :=
  { dtype := it.out_dtype
  , layout := it.out_layout
  , sizes := it.shape
  , values := it.in_values.map (fun v => castVal it.out_dtype (stub it.common_dtype v)) }

/-- Modelled from the spec: the TensorIterator::unary_op factory used
throughout the source file — a config with one output, one input, the
all-same-dtype check at its default (on) and the memory-overlap flag
as requested, then built. -/
def TensorIterator.unary_op
    (result self : Tensor) (check_mem_overlap : Bool) : Except Err TensorIterator :=
  ((((({} : TensorIteratorConfig).set_check_mem_overlap check_mem_overlap).add_output
      result).add_input self).build)

/-- Modelled from the spec: `result.resize_(tmp.sizes()); result.copy_(tmp)`
of the complex-to-real policy (§4.4, step 3) — the caller's output
takes the temporary's shape and receives its values cast to the
output's own dtype. -/
def resize_copy (result tmp : Tensor) : Tensor :=
  { dtype := result.dtype
  , layout := result.layout
  , sizes := tmp.sizes
  , values := tmp.values.map (castVal result.dtype) }

/-- Transcribed from the source: unary_op_impl_out — build the unary
plan with the overlap check on, invoke the stub, return the written
output. -/
def unary_op_impl_out (stub : Stub) (result self : Tensor) : Except Err Tensor :=
  (TensorIterator.unary_op result self true).map (fun iter => iter.run stub)

/-- Transcribed from the source: unary_op_impl_with_complex_to_float_out.
For a complex input and a non-complex declared output: check the cast
from the input's real counterpart dtype, run the kernel into a fresh
temporary with the input's options, then resize the caller's output
and copy-cast into it.  Otherwise the direct path. -/
def unary_op_impl_with_complex_to_float_out
    (stub : Stub) (result self : Tensor) : Except Err Tensor :=
  if self.dtype.isComplex && !result.dtype.isComplex then
    let float_type := toValueType self.dtype
    if !canCast float_type result.dtype then .error .InvalidCast
    else
      let complex_result := empty0 self.options
      (unary_op_impl_out stub complex_result self).map (fun tmp => resize_copy result tmp)
  else
    unary_op_impl_out stub result self

/-- Transcribed from the source: unary_op_impl — allocate an empty
result with the input's options and delegate to the out-form. -/
def unary_op_impl
    (out_impl : Tensor → Tensor → Except Err Tensor) (self : Tensor) : Except Err Tensor :=
  out_impl (empty0 self.options) self

/-- Transcribed from the source: unary_op_impl_with_complex_to_float —
for a complex input the fresh result is allocated with the real-valued
counterpart dtype; otherwise with the input's own options. -/
def unary_op_impl_with_complex_to_float
    (out_impl : Tensor → Tensor → Except Err Tensor) (self : Tensor) : Except Err Tensor :=
  if self.dtype.isComplex then
    let float_type := toValueType self.dtype
    out_impl (empty0 (self.options.withDtype float_type)) self
  else
    out_impl (empty0 self.options) self

/-- Transcribed from the source: unary_op_impl_ — the in-place form
passes self as both output and input. -/
def unary_op_impl_
    (out_impl : Tensor → Tensor → Except Err Tensor) (self : Tensor) : Except Err Tensor :=
  out_impl self self

/-- Transcribed from the source: abs_out delegates to the
complex-to-real out-form helper. -/
def abs_out (stub : Stub) (result self : Tensor) : Except Err Tensor :=
  unary_op_impl_with_complex_to_float_out stub result self

/-- Transcribed from the source: abs delegates to the complex-to-real
allocate-and-return helper over abs_out. -/
def abs (stub : Stub) (self : Tensor) : Except Err Tensor :=
  unary_op_impl_with_complex_to_float (abs_out stub) self

/-- Transcribed from the source: abs_ is the plain in-place form over
abs_out. -/
def abs_ (stub : Stub) (self : Tensor) : Except Err Tensor :=
  unary_op_impl_ (abs_out stub) self

/-- Transcribed from the source: angle_out delegates to the
complex-to-real out-form helper. -/
def angle_out (stub : Stub) (result self : Tensor) : Except Err Tensor :=
  unary_op_impl_with_complex_to_float_out stub result self

/-- Transcribed from the source: angle delegates to the
complex-to-real allocate-and-return helper over angle_out. -/
def angle (stub : Stub) (self : Tensor) : Except Err Tensor :=
  unary_op_impl_with_complex_to_float (angle_out stub) self

/-- Transcribed from the source: ceil_out rejects complex inputs, then
takes the direct out-form path. -/
def ceil_out (stub : Stub) (result self : Tensor) : Except Err Tensor :=
  if self.dtype.isComplex then .error .UnsupportedDtype
  else unary_op_impl_out stub result self

/-- Transcribed from the source: ceil, the allocate-and-return form. -/
def ceil (stub : Stub) (self : Tensor) : Except Err Tensor :=
  unary_op_impl (ceil_out stub) self

/-- Transcribed from the source: ceil_, the in-place form. -/
def ceil_ (stub : Stub) (self : Tensor) : Except Err Tensor :=
  unary_op_impl_ (ceil_out stub) self

/-- Transcribed from the source: floor_out rejects complex inputs,
then takes the direct out-form path. -/
def floor_out (stub : Stub) (result self : Tensor) : Except Err Tensor :=
  if self.dtype.isComplex then .error .UnsupportedDtype
  else unary_op_impl_out stub result self

/-- Transcribed from the source: floor, the allocate-and-return form. -/
def floor (stub : Stub) (self : Tensor) : Except Err Tensor :=
  unary_op_impl (floor_out stub) self

/-- Transcribed from the source: floor_, the in-place form. -/
def floor_ (stub : Stub) (self : Tensor) : Except Err Tensor :=
  unary_op_impl_ (floor_out stub) self

/-- Transcribed from the source: trunc_out rejects complex inputs,
then takes the direct out-form path. -/
def trunc_out (stub : Stub) (result self : Tensor) : Except Err Tensor :=
  if self.dtype.isComplex then .error .UnsupportedDtype
  else unary_op_impl_out stub result self

/-- Transcribed from the source: trunc, the allocate-and-return form. -/
def trunc (stub : Stub) (self : Tensor) : Except Err Tensor :=
  unary_op_impl (trunc_out stub) self

/-- Transcribed from the source: trunc_, the in-place form. -/
def trunc_ (stub : Stub) (self : Tensor) : Except Err Tensor :=
  unary_op_impl_ (trunc_out stub) self

/-- Transcribed from the source: neg_out rejects boolean inputs, then
takes the direct out-form path. -/
def neg_out (stub : Stub) (result self : Tensor) : Except Err Tensor :=
  if self.dtype == .kBool then .error .UnsupportedDtype
  else unary_op_impl_out stub result self

/-- Transcribed from the source: neg, the allocate-and-return form. -/
def neg (stub : Stub) (self : Tensor) : Except Err Tensor :=
  unary_op_impl (neg_out stub) self

/-- Transcribed from the source: neg_, the in-place form. -/
def neg_ (stub : Stub) (self : Tensor) : Except Err Tensor :=
  unary_op_impl_ (neg_out stub) self

/-- Interleave the (real, imaginary) components of a row-major value
list as consecutive real scalars. -/
def expandPairs : List Val → List Val
  | [] => []
  | v :: rest => (v.1, 0) :: (v.2, 0) :: expandPairs rest

/-- Modelled from the spec: view_complex_as_float (§4.4) — the
zero-copy reinterpretation of a complex array as a real array with a
trailing 2-element dimension holding the (real, imaginary) component
pair of each position. -/
def view_complex_as_float (self : Tensor) : Tensor :=
  { dtype := toValueType self.dtype
  , layout := self.layout
  , sizes := self.sizes ++ [2]
  , values := expandPairs self.values }

/-- Select one of the two components of each consecutive pair of a
row-major value list; index 0 keeps the first component, any other
index the second. -/
def pick2 (idx : Nat) : List Val → List Val
  | a :: b :: rest => (if idx = 0 then a else b) :: pick2 idx rest
  | _ => []

/-- Modelled from the spec: at::select along the last dimension (§4.4)
— drops the trailing 2-element dimension, keeping the component at
the given index of each pair; no allocation, a re-view only. -/
def select_last (t : Tensor) (idx : Nat) : Tensor :=
  { dtype := t.dtype
  , layout := t.layout
  , sizes := t.sizes.dropLast
  , values := pick2 idx t.values }

/-- Transcribed from the source: real — for a complex input, re-view
as float with a trailing pair dimension and select component 0;
otherwise fail. -/
def real (self : Tensor) : Except Err Tensor :=
  if self.dtype.isComplex then
    let float_tensor := view_complex_as_float self
    .ok (select_last float_tensor 0)
  else
    .error .UnsupportedDtype

/-- Transcribed from the source: imag — for a complex input, re-view
as float with a trailing pair dimension and select component 1;
otherwise fail. -/
def imag (self : Tensor) : Except Err Tensor :=
  if self.dtype.isComplex then
    let float_tensor := view_complex_as_float self
    .ok (select_last float_tensor 1)
  else
    .error .UnsupportedDtype

/-- Transcribed from the source: the iteration config built by
logical_not_out — all-same-dtype check disabled, memory-overlap check
enabled, one output and one input. -/
def logical_not_config (result self : Tensor) : TensorIteratorConfig :=
  (((({} : TensorIteratorConfig).check_all_same_dtype false).set_check_mem_overlap
      true).add_output result).add_input self

/-- Transcribed from the source: logical_not_out builds its own config
(same-dtype check off, overlap check on) and runs the stub. -/
def logical_not_out (stub : Stub) (result self : Tensor) : Except Err Tensor :=
  ((logical_not_config result self).build).map (fun iter => iter.run stub)

/-- Transcribed from the source: logical_not allocates a boolean-dtype
result with the input's remaining options and delegates to the
out-form. -/
def logical_not (stub : Stub) (self : Tensor) : Except Err Tensor :=
  logical_not_out stub (empty0 (self.options.withDtype .kBool)) self

/-- Transcribed from the source: logical_not_ writes into self. -/
def logical_not_ (stub : Stub) (self : Tensor) : Except Err Tensor :=
  logical_not_out stub self self

/-- A scalar bound or order argument, modelled over the integers. -/
abbrev Scalar := Int

/-- A clamp kernel taking both bounds. -/
abbrev ClampStub := Scalar → Scalar → Stub

/-- A one-bound clamp kernel. -/
abbrev ClampOneStub := Scalar → Stub

/-- Transcribed from the source: clamp_max_out — reject complex, then
require strided layout, then run the max-only kernel. -/
def clamp_max_out (stubMax : ClampOneStub) (result self : Tensor) (mx : Scalar) :
    Except Err Tensor :=
  if self.dtype.isComplex then .error .UnsupportedDtype
  else if self.layout != .Strided then .error .UnsupportedLayout
  else (TensorIterator.unary_op result self true).map (fun iter => iter.run (stubMax mx))

/-- Transcribed from the source: clamp_max, the allocate-and-return
form. -/
def clamp_max (stubMax : ClampOneStub) (self : Tensor) (mx : Scalar) : Except Err Tensor :=
  clamp_max_out stubMax (empty0 self.options) self mx

/-- Transcribed from the source: clamp_max_, the in-place form. -/
def clamp_max_ (stubMax : ClampOneStub) (self : Tensor) (mx : Scalar) : Except Err Tensor :=
  clamp_max_out stubMax self self mx

/-- Transcribed from the source: clamp_min_out — reject complex, then
require strided layout, then run the min-only kernel. -/
def clamp_min_out (stubMin : ClampOneStub) (result self : Tensor) (mn : Scalar) :
    Except Err Tensor :=
  if self.dtype.isComplex then .error .UnsupportedDtype
  else if self.layout != .Strided then .error .UnsupportedLayout
  else (TensorIterator.unary_op result self true).map (fun iter => iter.run (stubMin mn))

/-- Transcribed from the source: clamp_min, the allocate-and-return
form. -/
def clamp_min (stubMin : ClampOneStub) (self : Tensor) (mn : Scalar) : Except Err Tensor :=
  clamp_min_out stubMin (empty0 self.options) self mn

/-- Transcribed from the source: clamp_min_, the in-place form. -/
def clamp_min_ (stubMin : ClampOneStub) (self : Tensor) (mn : Scalar) : Except Err Tensor :=
  clamp_min_out stubMin self self mn

/-- Transcribed from the source: clamp_out — reject complex first;
with both bounds require strided layout and run the fused kernel; with
only one bound delegate to the dedicated one-bound out-form; with no
bound fail. -/
def clamp_out (stubC : ClampStub) (stubMax stubMin : ClampOneStub)
    (result self : Tensor) (mn mx : Option Scalar) : Except Err Tensor :=
  if self.dtype.isComplex then .error .UnsupportedDtype
  else
    match mn, mx with
    | some a, some b =>
        if self.layout != .Strided then .error .UnsupportedLayout
        else (TensorIterator.unary_op result self true).map (fun iter => iter.run (stubC a b))
    | none, some b => clamp_max_out stubMax result self b
    | some a, none => clamp_min_out stubMin result self a
    | none, none => .error .InvalidArgument

/-- Transcribed from the source: clamp, the allocate-and-return form. -/
def clamp (stubC : ClampStub) (stubMax stubMin : ClampOneStub)
    (self : Tensor) (mn mx : Option Scalar) : Except Err Tensor :=
  clamp_out stubC stubMax stubMin (empty0 self.options) self mn mx

/-- Transcribed from the source: clamp_, the in-place form. -/
def clamp_ (stubC : ClampStub) (stubMax stubMin : ClampOneStub)
    (self : Tensor) (mn mx : Option Scalar) : Except Err Tensor :=
  clamp_out stubC stubMax stubMin self self mn mx

/-- A polygamma kernel, taking the order argument. -/
abbrev PolyStub := Int → Stub

/-- Transcribed from the source: polygamma_out — reject a negative
order, then run the order-indexed kernel through the unary plan. -/
def polygamma_out (pstub : PolyStub) (result : Tensor) (n : Int) (self : Tensor) :
    Except Err Tensor :=
  if n < 0 then .error .InvalidArgument
  else (TensorIterator.unary_op result self true).map (fun iter => iter.run (pstub n))

/-- Transcribed from the source: polygamma, the allocate-and-return
form. -/
def polygamma (pstub : PolyStub) (n : Int) (self : Tensor) : Except Err Tensor :=
  polygamma_out pstub (empty0 self.options) n self

/-- Transcribed from the source: polygamma_, the in-place form. -/
def polygamma_ (pstub : PolyStub) (self : Tensor) (n : Int) : Except Err Tensor :=
  polygamma_out pstub self n self

/-- Transcribed from the source: mvlgamma_check — in source order:
require a floating dtype, then require every element strictly greater
than (p - 1) / 2 (on integer-valued elements, 2 * x > p - 1), then
require p at least 1.  The latter two are argument-domain validations
and map to InvalidArgument in the taxonomy. -/
def mvlgamma_check (self : Tensor) (p : Int) : Except Err Unit :=
  if !self.dtype.isFloatingType then .error .UnsupportedDtype
  else if !self.values.all (fun v => p - 1 < 2 * v.1) then .error .InvalidArgument
  else if p < 1 then .error .InvalidArgument
  else .ok ()

/-- Transcribed from the source: mvlgamma runs mvlgamma_check and then
the multivariate log-gamma computation; the computation itself
(arange, lgamma, sum) is outside this file and abstracted as a
parameter. -/
def mvlgamma (compute : Tensor → Int → Tensor) (self : Tensor) (p : Int) :
    Except Err Tensor :=
  match mvlgamma_check self p with
  | .error e => .error e
  | .ok _ => .ok (compute self p)

/-- Transcribed from the source: mvlgamma_ runs mvlgamma_check and
then copies the computed value back into self; the computation is
abstracted as a parameter. -/
def mvlgamma_ (compute : Tensor → Int → Tensor) (self : Tensor) (p : Int) :
    Except Err Tensor :=
  match mvlgamma_check self p with
  | .error e => .error e
  | .ok _ => .ok (compute self p)

/-- Transcribed from the source: square is defined as the power
operation at exponent 2; the power operation lives outside this file
and is passed as a parameter. -/
def square (pow : Tensor → Int → Tensor) (self : Tensor) : Tensor :=
  pow self 2

/-- Transcribed from the source: square_ is defined as the out-form of
the power operation writing into self at exponent 2. -/
def square_ (pow_out : Tensor → Tensor → Int → Tensor) (self : Tensor) : Tensor :=
  pow_out self self 2

/-- The dispatch-stub names registered by the DEFINE_DISPATCH block at
the end of the source file, in source order. -/
def dispatch_stubs : List String :=
  [ "abs_stub", "angle_stub", "real_stub", "imag_stub", "conj_stub"
  , "acos_stub", "acosh_stub", "asinh_stub", "atanh_stub", "asin_stub"
  , "atan_stub", "bitwise_not_stub", "ceil_stub", "clamp_stub"
  , "clamp_max_stub", "clamp_min_stub", "cos_stub", "cosh_stub"
  , "digamma_stub", "erf_stub", "erfc_stub", "erfinv_stub", "exp_stub"
  , "expm1_stub", "floor_stub", "frac_stub", "log_stub", "log10_stub"
  , "log1p_stub", "log2_stub", "logical_not_stub", "neg_stub"
  , "polygamma_stub", "reciprocal_stub", "round_stub", "rsqrt_stub"
  , "sigmoid_stub", "sign_stub", "sin_stub", "sinh_stub", "sqrt_stub"
  , "tan_stub", "tanh_stub", "trigamma_stub", "trunc_stub", "lgamma_stub" ]

/-- The identity kernel, a concrete stand-in for an opaque stub. -/
def idStub : Stub := fun _ v => v

/-- A constantly-zero kernel, a second concrete stand-in distinct from
idStub. -/
def zeroStub : Stub := fun _ _ => (0, 0)

/-- A concrete model of the magnitude kernel: the integer square root
of the squared modulus, with zero imaginary part (exact on Pythagorean
inputs such as 3 + 4i). -/
def absK : Stub := fun _ v => (Int.ofNat (Nat.sqrt (v.1 * v.1 + v.2 * v.2).toNat), 0)

/-- A concrete polygamma kernel stand-in. -/
def polyK : PolyStub := fun _ _ v => v

/-- A concrete fused two-bound clamp kernel. -/
def clampK : ClampStub := fun a b _ v => (max a (min b v.1), 0)

/-- A concrete max-only clamp kernel. -/
def clampMaxK : ClampOneStub := fun b _ v => (min b v.1, 0)

/-- A concrete min-only clamp kernel. -/
def clampMinK : ClampOneStub := fun a _ v => (max a v.1, 0)

/-- A concrete complex tensor holding 3 + 4i. -/
def tC : Tensor :=
  { dtype := .kComplexFloat, layout := .Strided, sizes := [1], values := [(3, 4)] }

/-- A concrete float tensor holding [1, -2]. -/
def tF : Tensor :=
  { dtype := .kFloat, layout := .Strided, sizes := [2], values := [(1, 0), (-2, 0)] }

/-- A concrete boolean tensor. -/
def tB : Tensor :=
  { dtype := .kBool, layout := .Strided, sizes := [1], values := [(1, 0)] }

/-- A concrete 64-bit integer tensor. -/
def tL : Tensor :=
  { dtype := .kLong, layout := .Strided, sizes := [1], values := [(7, 0)] }

/-- A concrete float tensor with a non-strided layout. -/
def tFS : Tensor :=
  { dtype := .kFloat, layout := .Sparse, sizes := [1], values := [(1, 0)] }

theorem unary_op_build_eq (result self : Tensor) (flag : Bool)
    (h : result.dtype = self.dtype) :
    TensorIterator.unary_op result self flag =
      .ok { out_dtype := result.dtype, out_layout := result.layout,
            shape := self.sizes, common_dtype := self.dtype,
            in_values := self.values } := by
  simp [TensorIterator.unary_op, TensorIteratorConfig.set_check_mem_overlap,
        TensorIteratorConfig.add_output, TensorIteratorConfig.add_input,
        TensorIteratorConfig.build, h]

theorem unary_op_impl_out_eq (stub : Stub) (result self : Tensor)
    (h : result.dtype = self.dtype) :
    unary_op_impl_out stub result self =
      .ok { dtype := result.dtype, layout := result.layout, sizes := self.sizes,
            values := self.values.map (fun v => castVal result.dtype (stub self.dtype v)) } := by
  rw [unary_op_impl_out, unary_op_build_eq result self true h]
  simp [TensorIterator.run, Except.map, h]

theorem unary_kernel_inplace_eq (st : Stub) (self : Tensor) :
    (TensorIterator.unary_op self self true).map (fun iter => iter.run st) =
      (TensorIterator.unary_op (empty0 self.options) self true).map (fun iter => iter.run st) := by
  rw [unary_op_build_eq self self true rfl,
      unary_op_build_eq (empty0 self.options) self true rfl]
  simp [empty0, Tensor.options, TensorIterator.run, Except.map]

theorem map_error_indep {α β : Type} (o : Except Err α) (f g : α → β) (e : Err)
    (h : o.map f = .error e) : o.map g = .error e := by
  cases o <;> simp_all [Except.map]

theorem map_eq_error {α β : Type} (o : Except Err α) (f : α → β) (e : Err)
    (h : o.map f = .error e) : o = .error e := by
  cases o <;> simp_all [Except.map]

/-- C5: for every complex input tensor, ceil, floor and trunc fail
with UnsupportedDtype in all three call forms; for every boolean input
tensor, neg fails with UnsupportedDtype in all three call forms. -/
theorem claim_C5 (stub : Stub) (result self : Tensor) :
    (self.dtype.isComplex = true →
        (ceil_out stub result self = .error .UnsupportedDtype ∧
         ceil stub self = .error .UnsupportedDtype ∧
         ceil_ stub self = .error .UnsupportedDtype) ∧
        (floor_out stub result self = .error .UnsupportedDtype ∧
         floor stub self = .error .UnsupportedDtype ∧
         floor_ stub self = .error .UnsupportedDtype) ∧
        (trunc_out stub result self = .error .UnsupportedDtype ∧
         trunc stub self = .error .UnsupportedDtype ∧
         trunc_ stub self = .error .UnsupportedDtype)) ∧
    (self.dtype = .kBool →
        neg_out stub result self = .error .UnsupportedDtype ∧
        neg stub self = .error .UnsupportedDtype ∧
        neg_ stub self = .error .UnsupportedDtype) := by
  constructor
  · intro h
    simp [ceil_out, ceil, ceil_, floor_out, floor, floor_, trunc_out, trunc, trunc_,
          unary_op_impl, unary_op_impl_, h]
  · intro h
    simp [neg_out, neg, neg_, unary_op_impl, unary_op_impl_, h]

/-- Witness for C5 at concrete inputs: the in-place forms of ceil on a
complex tensor and of neg on a boolean tensor both fail with
UnsupportedDtype. -/
theorem claim_C5_witness :
    ceil_ idStub tC = .error .UnsupportedDtype ∧
    neg_ idStub tB = .error .UnsupportedDtype :=
  ⟨((claim_C5 idStub tC tC).1 (by decide)).1.2.2,
   ((claim_C5 idStub tB tB).2 (by decide)).2.2⟩

/-- C9: square is exactly the power operation at exponent 2, square_
is exactly the out-form of power writing into self at exponent 2, and
no dedicated square kernel is registered in the dispatch block. -/
theorem claim_C9 :
    (∀ (pw : Tensor → Int → Tensor) (self : Tensor), square pw self = pw self 2) ∧
    (∀ (pwo : Tensor → Tensor → Int → Tensor) (self : Tensor),
        square_ pwo self = pwo self self 2) ∧
    "square_stub" ∉ dispatch_stubs :=
  ⟨fun _ _ => rfl, fun _ _ => rfl, by decide⟩

/-- C10: the out-of-place logical_not allocates a boolean-dtype
result; the out-form succeeds and writes into a destination whose
dtype may differ from the input's (here shown for every destination
dtype), and the iteration plan is configured with the all-same-dtype
check disabled and the memory-overlap check enabled. -/
theorem claim_C10 (stub : Stub) (result self : Tensor) :
    (logical_not stub self).map Tensor.dtype = .ok .kBool ∧
    logical_not_out stub result self =
      .ok { dtype := result.dtype, layout := result.layout, sizes := self.sizes,
            values := self.values.map (fun v => castVal result.dtype (stub self.dtype v)) } ∧
    logical_not_ stub self =
      .ok { dtype := self.dtype, layout := self.layout, sizes := self.sizes,
            values := self.values.map (fun v => castVal self.dtype (stub self.dtype v)) } ∧
    (logical_not_config result self).same_dtype_check = false ∧
    (logical_not_config result self).mem_overlap_check = true := by
  refine ⟨?_, ?_, ?_, rfl, rfl⟩ <;>
    simp [logical_not, logical_not_, logical_not_out, logical_not_config,
          TensorIteratorConfig.check_all_same_dtype, TensorIteratorConfig.set_check_mem_overlap,
          TensorIteratorConfig.add_output, TensorIteratorConfig.add_input,
          TensorIteratorConfig.build, TensorIterator.run, Except.map,
          empty0, Tensor.options, Options.withDtype]

/-- C4: clamp in all three call forms rejects complex input with
UnsupportedDtype, rejects the no-bound call with InvalidArgument,
rejects non-strided layouts with UnsupportedLayout when a bound is
present; with both bounds it runs the single fused clamp kernel, with
only a max bound it delegates to clamp_max_out, and with only a min
bound it delegates to clamp_min_out. -/
theorem claim_C4 (sC : ClampStub) (sMax sMin : ClampOneStub) (result self : Tensor)
    (mn mx : Option Scalar) (a b : Scalar) :
    (self.dtype.isComplex = true →
        clamp_out sC sMax sMin result self mn mx = .error .UnsupportedDtype ∧
        clamp sC sMax sMin self mn mx = .error .UnsupportedDtype ∧
        clamp_ sC sMax sMin self mn mx = .error .UnsupportedDtype) ∧
    (self.dtype.isComplex = false →
        clamp_out sC sMax sMin result self none none = .error .InvalidArgument ∧
        clamp sC sMax sMin self none none = .error .InvalidArgument ∧
        clamp_ sC sMax sMin self none none = .error .InvalidArgument) ∧
    (self.dtype.isComplex = false → self.layout ≠ .Strided → (mn ≠ none ∨ mx ≠ none) →
        clamp_out sC sMax sMin result self mn mx = .error .UnsupportedLayout ∧
        clamp sC sMax sMin self mn mx = .error .UnsupportedLayout ∧
        clamp_ sC sMax sMin self mn mx = .error .UnsupportedLayout) ∧
    (self.dtype.isComplex = false → self.layout = .Strided →
        clamp_out sC sMax sMin result self (some a) (some b) =
          (TensorIterator.unary_op result self true).map (fun iter => iter.run (sC a b))) ∧
    (clamp_out sC sMax sMin result self none (some b) = clamp_max_out sMax result self b) ∧
    (clamp_out sC sMax sMin result self (some a) none = clamp_min_out sMin result self a) := by
  refine ⟨?_, ?_, ?_, ?_, ?_, ?_⟩
  · intro h
    simp [clamp_out, clamp, clamp_, h]
  · intro h
    simp [clamp_out, clamp, clamp_, h]
  · intro h hl hb
    have hl2 : (self.layout != Layout.Strided) = true := by
      simpa [bne_iff_ne] using hl
    rcases mn with _ | a2 <;> rcases mx with _ | b2
    · rcases hb with hb | hb <;> simp at hb
    · simp [clamp_out, clamp, clamp_, clamp_max_out, h, hl2]
    · simp [clamp_out, clamp, clamp_, clamp_min_out, h, hl2]
    · simp [clamp_out, clamp, clamp_, h, hl2]
  · intro h hl
    simp [clamp_out, h, hl]
  · simp [clamp_out]
    intro h
    simp [clamp_max_out, h]
  · simp [clamp_out]
    intro h
    simp [clamp_min_out, h]

/-- Witness for C4 at concrete inputs: complex input rejected, the
no-bound call rejected, a sparse-layout input with a min bound
rejected, and delegation of the max-only call to clamp_max_out. -/
theorem claim_C4_witness :
    clamp clampK clampMaxK clampMinK tC (some 0) (some 1) = .error .UnsupportedDtype ∧
    clamp_out clampK clampMaxK clampMinK tF tF none none = .error .InvalidArgument ∧
    clamp_ clampK clampMaxK clampMinK tFS (some 0) none = .error .UnsupportedLayout ∧
    clamp_out clampK clampMaxK clampMinK tF tF none (some 1) =
      clamp_max_out clampMaxK tF tF 1 :=
  ⟨((claim_C4 clampK clampMaxK clampMinK tF tC (some 0) (some 1) 0 1).1 (by decide)).2.1,
   ((claim_C4 clampK clampMaxK clampMinK tF tF none none 0 1).2.1 (by decide)).1,
   ((claim_C4 clampK clampMaxK clampMinK tFS tFS (some 0) none 0 1).2.2.1 (by decide)
      (by decide) (Or.inl (by decide))).2.2,
   (claim_C4 clampK clampMaxK clampMinK tF tF none none 0 1).2.2.2.2.1⟩

/-- C7: polygamma in all three call forms fails with InvalidArgument
for a negative order and proceeds to the kernel path for every
nonnegative order; mvlgamma and mvlgamma_ fail with UnsupportedDtype
for every non-floating input dtype and with InvalidArgument for every
multiplicity p below 1. -/
theorem claim_C7 (pstub : PolyStub) (cm cm2 : Tensor → Int → Tensor)
    (result self : Tensor) (n p : Int) :
    (n < 0 →
        polygamma_out pstub result n self = .error .InvalidArgument ∧
        polygamma pstub n self = .error .InvalidArgument ∧
        polygamma_ pstub self n = .error .InvalidArgument) ∧
    (0 ≤ n →
        polygamma_out pstub result n self =
          (TensorIterator.unary_op result self true).map (fun iter => iter.run (pstub n)) ∧
        polygamma pstub n self =
          (TensorIterator.unary_op (empty0 self.options) self true).map
            (fun iter => iter.run (pstub n)) ∧
        polygamma_ pstub self n =
          (TensorIterator.unary_op self self true).map (fun iter => iter.run (pstub n))) ∧
    (self.dtype.isFloatingType = false →
        mvlgamma cm self p = .error .UnsupportedDtype ∧
        mvlgamma_ cm2 self p = .error .UnsupportedDtype) ∧
    (self.dtype.isFloatingType = true → p < 1 →
        mvlgamma cm self p = .error .InvalidArgument ∧
        mvlgamma_ cm2 self p = .error .InvalidArgument) := by
  refine ⟨?_, ?_, ?_, ?_⟩
  · intro h
    simp [polygamma_out, polygamma, polygamma_, h]
  · intro h
    have h2 : ¬ n < 0 := by omega
    simp [polygamma_out, polygamma, polygamma_, h2]
  · intro h
    simp [mvlgamma, mvlgamma_, mvlgamma_check, h]
  · intro h hp
    by_cases hall : self.values.all (fun v => decide (p - 1 < 2 * v.1))
    · simp [mvlgamma, mvlgamma_, mvlgamma_check, h, hall, hp]
    · simp [mvlgamma, mvlgamma_, mvlgamma_check, h, hall]

/-- Witness for C7 at concrete inputs: a negative polygamma order
rejected, a nonnegative order reaching the kernel path, mvlgamma on an
integer tensor rejected with UnsupportedDtype, and mvlgamma on a float
tensor with p = 0 rejected with InvalidArgument. -/
theorem claim_C7_witness :
    polygamma polyK (-1) tF = .error .InvalidArgument ∧
    polygamma_out polyK tF 2 tF =
      (TensorIterator.unary_op tF tF true).map (fun iter => iter.run (polyK 2)) ∧
    mvlgamma (fun t _ => t) tL 2 = .error .UnsupportedDtype ∧
    mvlgamma (fun t _ => t) tF 0 = .error .InvalidArgument :=
  ⟨((claim_C7 polyK (fun t _ => t) (fun t _ => t) tF tF (-1) 0).1 (by decide)).2.1,
   ((claim_C7 polyK (fun t _ => t) (fun t _ => t) tF tF 2 0).2.1 (by decide)).1,
   ((claim_C7 polyK (fun t _ => t) (fun t _ => t) tL tL 0 2).2.2.1 (by decide)).1,
   ((claim_C7 polyK (fun t _ => t) (fun t _ => t) tF tF 0 0).2.2.2 (by decide) (by decide)).1⟩

theorem pick2_zero (l : List Val) :
    pick2 0 (expandPairs l) = l.map (fun v => ((v.1 : Int), (0 : Int))) := by
  induction l with
  | nil => rfl
  | cons x xs ih => simp [expandPairs, pick2, ih]

theorem pick2_one (l : List Val) :
    pick2 1 (expandPairs l) = l.map (fun v => ((v.2 : Int), (0 : Int))) := by
  induction l with
  | nil => rfl
  | cons x xs ih => simp [expandPairs, pick2, ih]

/-- C2: for the into-buffer form of a complex-to-real operation
(abs_out, angle_out): with a complex input and a non-complex declared
output, the call fails with InvalidCast unless the real-valued
counterpart of the input dtype casts to the output dtype, and
otherwise computes the kernel into a fresh temporary allocated with
the input's options, then resizes the caller's output to the
temporary's shape and copy-casts its values into it; with a
non-complex input or a complex output, the plain direct path is taken
unchanged. -/
theorem claim_C2 (stub : Stub) (result self : Tensor) :
    (self.dtype.isComplex = true → result.dtype.isComplex = false →
        (canCast (toValueType self.dtype) result.dtype = false →
            unary_op_impl_with_complex_to_float_out stub result self = .error .InvalidCast) ∧
        (canCast (toValueType self.dtype) result.dtype = true →
            unary_op_impl_with_complex_to_float_out stub result self =
              (unary_op_impl_out stub (empty0 self.options) self).map
                (fun tmp => resize_copy result tmp) ∧
            unary_op_impl_with_complex_to_float_out stub result self =
              .ok { dtype := result.dtype, layout := result.layout, sizes := self.sizes,
                    values := self.values.map
                      (fun v => castVal result.dtype
                        (castVal self.dtype (stub self.dtype v))) })) ∧
    ((self.dtype.isComplex = false ∨ result.dtype.isComplex = true) →
        unary_op_impl_with_complex_to_float_out stub result self =
          unary_op_impl_out stub result self) ∧
    abs_out stub result self = unary_op_impl_with_complex_to_float_out stub result self ∧
    angle_out stub result self = unary_op_impl_with_complex_to_float_out stub result self := by
  refine ⟨?_, ?_, rfl, rfl⟩
  · intro h1 h2
    constructor
    · intro h3
      simp [unary_op_impl_with_complex_to_float_out, h1, h2, h3]
    · intro h3
      constructor
      · simp [unary_op_impl_with_complex_to_float_out, h1, h2, h3]
      · rw [unary_op_impl_with_complex_to_float_out]
        simp only [h1, h2, h3]
        rw [unary_op_impl_out_eq stub (empty0 self.options) self rfl]
        simp [resize_copy, Except.map, empty0, Tensor.options]
  · intro h
    rcases h with h | h <;> simp [unary_op_impl_with_complex_to_float_out, h]

/-- Witness for C2 at concrete inputs: a complex input with a long
integer output fails with InvalidCast (float does not cast to an
integral dtype), and with a float output the result is computed via
the complex temporary and copy-cast into the caller's output. -/
theorem claim_C2_witness :
    unary_op_impl_with_complex_to_float_out idStub tL tC = .error .InvalidCast ∧
    unary_op_impl_with_complex_to_float_out absK tF tC =
      (unary_op_impl_out absK (empty0 tC.options) tC).map (fun tmp => resize_copy tF tmp) :=
  ⟨((claim_C2 idStub tL tC).1 (by decide) (by decide)).1 (by decide),
   (((claim_C2 absK tF tC).1 (by decide) (by decide)).2 (by decide)).1⟩

/-- C3: the allocate-and-return forms abs and angle produce, for every
complex input, an output with the real-valued counterpart dtype of the
input, and for every non-complex input an output allocated with the
input's own options (same dtype and layout). -/
theorem claim_C3 (stub : Stub) (self : Tensor) :
    (self.dtype.isComplex = true →
        (abs stub self).map Tensor.dtype = .ok (toValueType self.dtype) ∧
        (angle stub self).map Tensor.dtype = .ok (toValueType self.dtype) ∧
        (abs stub self).map Tensor.layout = .ok self.layout ∧
        (angle stub self).map Tensor.layout = .ok self.layout) ∧
    (self.dtype.isComplex = false →
        (abs stub self).map Tensor.dtype = .ok self.dtype ∧
        (angle stub self).map Tensor.dtype = .ok self.dtype ∧
        (abs stub self).map Tensor.layout = .ok self.layout ∧
        (angle stub self).map Tensor.layout = .ok self.layout) := by
  constructor
  · intro h
    cases hd : self.dtype <;>
      simp_all [abs, angle, abs_out, angle_out, unary_op_impl_with_complex_to_float,
        unary_op_impl_with_complex_to_float_out, unary_op_impl_out,
        TensorIterator.unary_op, TensorIteratorConfig.set_check_mem_overlap,
        TensorIteratorConfig.add_output, TensorIteratorConfig.add_input,
        TensorIteratorConfig.build, TensorIterator.run, Except.map,
        empty0, Tensor.options, Options.withDtype, resize_copy, castVal, canCast,
        toValueType, ScalarType.isComplex, ScalarType.isFloatingType,
        ScalarType.isIntegralType]
  · intro h
    simp [abs, angle, abs_out, angle_out, unary_op_impl_with_complex_to_float,
      unary_op_impl_with_complex_to_float_out, unary_op_impl_out,
      TensorIterator.unary_op, TensorIteratorConfig.set_check_mem_overlap,
      TensorIteratorConfig.add_output, TensorIteratorConfig.add_input,
      TensorIteratorConfig.build, TensorIterator.run, Except.map,
      empty0, Tensor.options, h]

/-- Witness for C3 at concrete inputs: abs of a complex-float tensor
has the float dtype, abs of a float tensor keeps the float dtype. -/
theorem claim_C3_witness :
    (abs absK tC).map Tensor.dtype = .ok (toValueType tC.dtype) ∧
    (abs absK tF).map Tensor.dtype = .ok tF.dtype :=
  ⟨((claim_C3 absK tC).1 (by decide)).1, ((claim_C3 absK tF).2 (by decide)).1⟩

/-- C6: real and imag fail with UnsupportedDtype for every non-complex
input; for a complex input of logical shape S they return a tensor of
the real counterpart dtype and shape S whose values are the real
(respectively imaginary) component at each position, obtained by
re-viewing the complex array with a trailing 2-element dimension and
selecting index 0 or 1. -/
theorem claim_C6 (self : Tensor) :
    (self.dtype.isComplex = false →
        real self = .error .UnsupportedDtype ∧
        imag self = .error .UnsupportedDtype) ∧
    (self.dtype.isComplex = true →
        real self = .ok { dtype := toValueType self.dtype, layout := self.layout,
                          sizes := self.sizes,
                          values := self.values.map (fun v => (v.1, 0)) } ∧
        imag self = .ok { dtype := toValueType self.dtype, layout := self.layout,
                          sizes := self.sizes,
                          values := self.values.map (fun v => (v.2, 0)) }) := by
  constructor
  · intro h
    simp [real, imag, h]
  · intro h
    constructor <;>
      simp [real, imag, select_last, view_complex_as_float, h, pick2_zero, pick2_one]

/-- Witness for C6 at concrete inputs: real of a float tensor fails
with UnsupportedDtype; real of the complex tensor 3 + 4i is the float
tensor 3, with the input's shape. -/
theorem claim_C6_witness :
    real tF = .error .UnsupportedDtype ∧
    real tC = .ok { dtype := .kFloat, layout := .Strided, sizes := [1], values := [(3, 0)] } :=
  ⟨((claim_C6 tF).1 (by decide)).1, ((claim_C6 tC).2 (by decide)).1⟩

/-- C1 counterexample: the claim that in-place and out-of-place forms
agree in values and dtype fails for abs on a complex input.  On the
concrete tensor 3 + 4i, abs_ leaves the tensor with its complex dtype
while abs on a copy returns the real counterpart dtype, so the two
results differ. -/
theorem claim_C1_counterexample :
    (abs_ absK tC).map Tensor.dtype = .ok .kComplexFloat ∧
    (abs absK tC).map Tensor.dtype = .ok .kFloat ∧
    ScalarType.kComplexFloat ≠ ScalarType.kFloat :=
  ⟨rfl, rfl, by decide⟩

/-- C1 amended: the in-place form and the out-of-place form agree
exactly (values, dtype, shape, errors) for the direct-policy helpers
and for every direct-policy operation of the file (ceil, floor, trunc,
neg, clamp in all bound configurations, polygamma), and for abs on a
non-complex input; for abs on a complex input the element values'
real parts agree, but the in-place result keeps the input's complex
dtype while the out-of-place result has the real counterpart dtype. -/
theorem claim_C1_amended (stub : Stub) (sC : ClampStub) (sMax sMin : ClampOneStub)
    (ps : PolyStub) (self : Tensor) (mn mx : Option Scalar) (a b n : Int) :
    unary_op_impl_ (unary_op_impl_out stub) self =
      unary_op_impl (unary_op_impl_out stub) self ∧
    (ceil_ stub self = ceil stub self ∧
     floor_ stub self = floor stub self ∧
     trunc_ stub self = trunc stub self ∧
     neg_ stub self = neg stub self) ∧
    (clamp_ sC sMax sMin self mn mx = clamp sC sMax sMin self mn mx ∧
     clamp_max_ sMax self b = clamp_max sMax self b ∧
     clamp_min_ sMin self a = clamp_min sMin self a ∧
     polygamma_ ps self n = polygamma ps n self) ∧
    (self.dtype.isComplex = false → abs_ stub self = abs stub self) ∧
    (self.dtype.isComplex = true →
        (abs_ stub self).map Tensor.dtype = .ok self.dtype ∧
        (abs stub self).map Tensor.dtype = .ok (toValueType self.dtype) ∧
        (abs_ stub self).map (fun t => t.values.map Prod.fst) =
          (abs stub self).map (fun t => t.values.map Prod.fst)) := by
  refine ⟨?_, ⟨?_, ?_, ?_, ?_⟩, ⟨?_, ?_, ?_, ?_⟩, ?_, ?_⟩
  · rw [unary_op_impl_, unary_op_impl]
    exact unary_kernel_inplace_eq stub self
  · rw [ceil_, ceil, unary_op_impl_, unary_op_impl, ceil_out, ceil_out, unary_op_impl_out,
        unary_op_impl_out]
    by_cases h : self.dtype.isComplex <;> simp [h, unary_kernel_inplace_eq stub self]
  · rw [floor_, floor, unary_op_impl_, unary_op_impl, floor_out, floor_out, unary_op_impl_out,
        unary_op_impl_out]
    by_cases h : self.dtype.isComplex <;> simp [h, unary_kernel_inplace_eq stub self]
  · rw [trunc_, trunc, unary_op_impl_, unary_op_impl, trunc_out, trunc_out, unary_op_impl_out,
        unary_op_impl_out]
    by_cases h : self.dtype.isComplex <;> simp [h, unary_kernel_inplace_eq stub self]
  · rw [neg_, neg, unary_op_impl_, unary_op_impl, neg_out, neg_out, unary_op_impl_out,
        unary_op_impl_out]
    by_cases h : self.dtype == .kBool <;> simp [h, unary_kernel_inplace_eq stub self]
  · rw [clamp_, clamp]
    by_cases h : self.dtype.isComplex = true
    · simp [clamp_out, h]
    · rcases mn with _ | a2 <;> rcases mx with _ | b2 <;>
        simp [clamp_out, clamp_max_out, clamp_min_out, h, unary_kernel_inplace_eq]
  · rw [clamp_max_, clamp_max]
    by_cases h : self.dtype.isComplex = true
    · simp [clamp_max_out, h]
    · by_cases hl : self.layout != .Strided <;>
        simp [clamp_max_out, h, hl, unary_kernel_inplace_eq]
  · rw [clamp_min_, clamp_min]
    by_cases h : self.dtype.isComplex = true
    · simp [clamp_min_out, h]
    · by_cases hl : self.layout != .Strided <;>
        simp [clamp_min_out, h, hl, unary_kernel_inplace_eq]
  · rw [polygamma_, polygamma]
    by_cases h : n < 0 <;> simp [polygamma_out, h, unary_kernel_inplace_eq]
  · intro h
    rw [abs_, abs, unary_op_impl_, unary_op_impl_with_complex_to_float]
    simp only [h, Bool.false_eq_true, if_false]
    rw [abs_out, abs_out, unary_op_impl_with_complex_to_float_out,
        unary_op_impl_with_complex_to_float_out]
    simp only [h, Bool.false_and, Bool.false_eq_true, if_false]
    rw [unary_op_impl_out, unary_op_impl_out]
    exact unary_kernel_inplace_eq stub self
  · intro h
    cases hd : self.dtype <;>
      simp_all [abs_, abs, abs_out, unary_op_impl_, unary_op_impl_with_complex_to_float,
        unary_op_impl_with_complex_to_float_out, unary_op_impl_out,
        TensorIterator.unary_op, TensorIteratorConfig.set_check_mem_overlap,
        TensorIteratorConfig.add_output, TensorIteratorConfig.add_input,
        TensorIteratorConfig.build, TensorIterator.run, Except.map,
        empty0, Tensor.options, Options.withDtype, resize_copy, castVal, canCast,
        toValueType, ScalarType.isComplex, ScalarType.isFloatingType,
        ScalarType.isIntegralType]

/-- Witness for the amended C1 at concrete inputs: abs agrees between
the in-place and out-of-place forms on a float tensor, and on the
complex tensor 3 + 4i the real parts of the element values agree
between the two forms. -/
theorem claim_C1_amended_witness :
    abs_ absK tF = abs absK tF ∧
    (abs_ absK tC).map (fun t => t.values.map Prod.fst) =
      (abs absK tC).map (fun t => t.values.map Prod.fst) :=
  ⟨(claim_C1_amended absK clampK clampMaxK clampMinK polyK tF none none 0 0 0).2.2.2.1
     (by decide),
   ((claim_C1_amended absK clampK clampMaxK clampMinK polyK tC none none 0 0 0).2.2.2.2
     (by decide)).2.2⟩

/-- C8: for every operation of this core, a validation failure is
independent of the kernel: if a call returns an error with one kernel,
it returns the same error with any other kernel, so the error is
raised before any kernel is invoked.  In this pure embedding an error
result carries no written tensor, so on failure the output (caller
supplied or in-place self) is unmodified by construction. -/
theorem claim_C8 (s s2 : Stub) (sC sC2 : ClampStub) (sMax sMax2 sMin sMin2 : ClampOneStub)
    (ps ps2 : PolyStub) (cm cm2 : Tensor → Int → Tensor)
    (result self : Tensor) (mn mx : Option Scalar) (n p : Int) (e : Err) :
    (abs_out s result self = .error e → abs_out s2 result self = .error e) ∧
    (angle_out s result self = .error e → angle_out s2 result self = .error e) ∧
    (ceil_out s result self = .error e → ceil_out s2 result self = .error e) ∧
    (floor_out s result self = .error e → floor_out s2 result self = .error e) ∧
    (trunc_out s result self = .error e → trunc_out s2 result self = .error e) ∧
    (neg_out s result self = .error e → neg_out s2 result self = .error e) ∧
    (clamp_out sC sMax sMin result self mn mx = .error e →
        clamp_out sC2 sMax2 sMin2 result self mn mx = .error e) ∧
    (clamp_max_out sMax result self (mx.getD 0) = .error e →
        clamp_max_out sMax2 result self (mx.getD 0) = .error e) ∧
    (clamp_min_out sMin result self (mn.getD 0) = .error e →
        clamp_min_out sMin2 result self (mn.getD 0) = .error e) ∧
    (polygamma_out ps result n self = .error e → polygamma_out ps2 result n self = .error e) ∧
    (logical_not_out s result self = .error e → logical_not_out s2 result self = .error e) ∧
    (mvlgamma cm self p = .error e → mvlgamma cm2 self p = .error e) := by
  refine ⟨?_, ?_, ?_, ?_, ?_, ?_, ?_, ?_, ?_, ?_, ?_, ?_⟩
  all_goals intro h
  · cases h1 : (self.dtype.isComplex && !result.dtype.isComplex)
    · simp only [abs_out, unary_op_impl_with_complex_to_float_out, h1,
        Bool.false_eq_true, if_false, unary_op_impl_out] at h ⊢
      exact map_error_indep _ _ _ e h
    · simp only [abs_out, unary_op_impl_with_complex_to_float_out, h1, if_true] at h ⊢
      cases h2 : (!canCast (toValueType self.dtype) result.dtype)
      · simp only [h2, Bool.false_eq_true, if_false, unary_op_impl_out] at h ⊢
        have hb := map_eq_error _ _ _ (map_eq_error _ _ _ h)
        simp [hb, Except.map]
      · simp only [h2, if_true] at h ⊢
        exact h
  · cases h1 : (self.dtype.isComplex && !result.dtype.isComplex)
    · simp only [angle_out, unary_op_impl_with_complex_to_float_out, h1,
        Bool.false_eq_true, if_false, unary_op_impl_out] at h ⊢
      exact map_error_indep _ _ _ e h
    · simp only [angle_out, unary_op_impl_with_complex_to_float_out, h1, if_true] at h ⊢
      cases h2 : (!canCast (toValueType self.dtype) result.dtype)
      · simp only [h2, Bool.false_eq_true, if_false, unary_op_impl_out] at h ⊢
        have hb := map_eq_error _ _ _ (map_eq_error _ _ _ h)
        simp [hb, Except.map]
      · simp only [h2, if_true] at h ⊢
        exact h
  · cases h1 : self.dtype.isComplex
    · simp only [ceil_out, h1, Bool.false_eq_true, if_false, unary_op_impl_out] at h ⊢
      exact map_error_indep _ _ _ e h
    · simpa [ceil_out, h1] using h
  · cases h1 : self.dtype.isComplex
    · simp only [floor_out, h1, Bool.false_eq_true, if_false, unary_op_impl_out] at h ⊢
      exact map_error_indep _ _ _ e h
    · simpa [floor_out, h1] using h
  · cases h1 : self.dtype.isComplex
    · simp only [trunc_out, h1, Bool.false_eq_true, if_false, unary_op_impl_out] at h ⊢
      exact map_error_indep _ _ _ e h
    · simpa [trunc_out, h1] using h
  · cases h1 : (self.dtype == ScalarType.kBool)
    · simp only [neg_out, h1, Bool.false_eq_true, if_false, unary_op_impl_out] at h ⊢
      exact map_error_indep _ _ _ e h
    · simpa [neg_out, h1] using h
  · cases h1 : self.dtype.isComplex
    · rcases mn with _ | a2 <;> rcases mx with _ | b2
      · simpa [clamp_out, h1] using h
      · simp only [clamp_out, h1, Bool.false_eq_true, if_false, clamp_max_out] at h ⊢
        cases hl : (self.layout != Layout.Strided)
        · simp only [hl, Bool.false_eq_true, if_false] at h ⊢
          exact map_error_indep _ _ _ e h
        · simpa [hl] using h
      · simp only [clamp_out, h1, Bool.false_eq_true, if_false, clamp_min_out] at h ⊢
        cases hl : (self.layout != Layout.Strided)
        · simp only [hl, Bool.false_eq_true, if_false] at h ⊢
          exact map_error_indep _ _ _ e h
        · simpa [hl] using h
      · simp only [clamp_out, h1, Bool.false_eq_true, if_false] at h ⊢
        cases hl : (self.layout != Layout.Strided)
        · simp only [hl, Bool.false_eq_true, if_false] at h ⊢
          exact map_error_indep _ _ _ e h
        · simpa [hl] using h
    · simpa [clamp_out, h1] using h
  · cases h1 : self.dtype.isComplex
    · simp only [clamp_max_out, h1, Bool.false_eq_true, if_false] at h ⊢
      cases hl : (self.layout != Layout.Strided)
      · simp only [hl, Bool.false_eq_true, if_false] at h ⊢
        exact map_error_indep _ _ _ e h
      · simpa [hl] using h
    · simpa [clamp_max_out, h1] using h
  · cases h1 : self.dtype.isComplex
    · simp only [clamp_min_out, h1, Bool.false_eq_true, if_false] at h ⊢
      cases hl : (self.layout != Layout.Strided)
      · simp only [hl, Bool.false_eq_true, if_false] at h ⊢
        exact map_error_indep _ _ _ e h
      · simpa [hl] using h
    · simpa [clamp_min_out, h1] using h
  · by_cases h1 : n < 0
    · simpa [polygamma_out, h1] using h
    · simp only [polygamma_out, if_neg h1] at h ⊢
      exact map_error_indep _ _ _ e h
  · rw [logical_not_out] at h ⊢
    exact map_error_indep _ _ _ e h
  · rw [mvlgamma] at h ⊢
    cases hc : mvlgamma_check self p
    · simp_all [hc]
    · rw [hc] at h
      exact absurd h (by simp)

/-- Witness for C8 at concrete inputs: ceil_out on a complex tensor
fails with UnsupportedDtype under one kernel, hence under a different
kernel as well. -/
theorem claim_C8_witness :
    ceil_out zeroStub tC tC = .error .UnsupportedDtype :=
  (claim_C8 idStub zeroStub clampK clampK clampMaxK clampMaxK clampMinK clampMinK
      polyK polyK (fun t _ => t) (fun t _ => t) tC tC none none 0 1
      .UnsupportedDtype).2.2.1 (by rfl)

end Unary
